import Mathlib

/-!
# Verification of the Paraty GO! health-check / reporting engine

Shallow embedding of the health-check script (environment, server,
firebase, resend and integration checks, the outcome counters and
the final report) and of the `POST /api/cadastro` handler.

Modelling conventions:
* JavaScript numbers used as counters are `Nat` (they are only ever
  incremented by 1 from 0, so no overflow modelling is needed);
  the success-rate computation `Math.round((passed/total)*100)` is
  modelled over `ℚ` with `round` (= floor(x + 1/2), which matches
  `Math.round` on the non-negative values that arise here).
* External I/O (HTTP request lifecycle, Firestore SDK calls, the
  Resend SDK, `JSON.parse`) is modelled by a "world" value supplying
  each call's outcome; a call that can throw is an `Except`.
* `test(name, passed, details)` and `warn(name, message)` each record
  one probe result; the global counters are obtained by folding the
  recorded probe list, exactly mirroring the increments in the source.
-/

namespace ParatyGo

/-- Outcome of one recorded probe: `test` records passed/failed,
`warn` records a warning. -/
inductive Outcome where
  | passed
  | failed
  | warning
deriving DecidableEq, Repr

/-- One recorded probe: the `name`, whether it passed/failed/warned,
and the free-form details string printed with it. -/
structure ProbeResult where
  name : String
  outcome : Outcome
  detail : String
deriving DecidableEq, Repr

/-- Per-subsystem status, as stored in `results.<key>.status`. -/
inductive Status where
  | pending
  | passed
  | failed
deriving DecidableEq, Repr

/-- The four global counters of the script
(`totalTests`, `passedTests`, `failedTests`, `warnings`). -/
structure Counters where
  totalTests : Nat
  passedTests : Nat
  failedTests : Nat
  warnings : Nat
deriving DecidableEq, Repr

/-- All counters start at 0. -/
def Counters.init : Counters := ⟨0, 0, 0, 0⟩

/-- Counter update performed by one `test`/`warn` call:
`test` increments `totalTests` and exactly one of `passedTests` /
`failedTests`; `warn` increments only `warnings`. -/
def recordProbe (c : Counters) (p : ProbeResult) : Counters :=
  match p.outcome with
  | .passed => { c with totalTests := c.totalTests + 1, passedTests := c.passedTests + 1 }
  | .failed => { c with totalTests := c.totalTests + 1, failedTests := c.failedTests + 1 }
  | .warning => { c with warnings := c.warnings + 1 }

/-- Counters after a sequence of recorded probes. -/
def recordAll (c : Counters) (ps : List ProbeResult) : Counters :=
  ps.foldl recordProbe c

/-- Componentwise order on counters (used to state monotonicity). -/
def Counters.le (c d : Counters) : Prop :=
  c.totalTests ≤ d.totalTests ∧ c.passedTests ≤ d.passedTests ∧
    c.failedTests ≤ d.failedTests ∧ c.warnings ≤ d.warnings

lemma recordProbe_total_eq (c : Counters) (p : ProbeResult)
    (h : c.totalTests = c.passedTests + c.failedTests) :
    (recordProbe c p).totalTests = (recordProbe c p).passedTests + (recordProbe c p).failedTests := by
  cases hp : p.outcome <;> simp [recordProbe, hp, h] <;> omega

lemma recordAll_total_eq (ps : List ProbeResult) (c : Counters)
    (h : c.totalTests = c.passedTests + c.failedTests) :
    (recordAll c ps).totalTests =
      (recordAll c ps).passedTests + (recordAll c ps).failedTests := by
  induction ps generalizing c with
  | nil => simpa [recordAll] using h
  | cons p ps ih =>
      simpa [recordAll, List.foldl_cons] using ih (recordProbe c p) (recordProbe_total_eq c p h)

/-- JavaScript `String.prototype.includes`. -/
def jsIncludes (s pat : String) : Bool :=
  decide (pat.toList <:+: s.toList)

/-- JavaScript `x || fallback` on an optional string
(`undefined` and `''` are both falsy). -/
def jsOr (o : Option String) (fallback : String) : String :=
  match o with
  | some s => if s = "" then fallback else s
  | none => fallback

/-- Response headers, as far as the script inspects them
(it only reads `access-control-allow-origin`). -/
structure RespHeaders where
  allowOrigin : Option String
deriving DecidableEq, Repr

/-- What the network does for one request issued by `httpRequest`:
a response arrives (the `res` `end` event), the request errors
(the `error` event), or the 10-second timeout fires. -/
inductive NetEvent where
  | response (statusCode : Nat) (headers : RespHeaders) (body : String)
  | netError (msg : String)
  | timeout
deriving DecidableEq, Repr

/-- The object `httpRequest` resolves with.  The response shape has
`success/statusCode/headers/body`; the error and timeout shapes have
only `success:false` and `error`. -/
structure HttpResult where
  success : Bool
  statusCode : Option Nat
  headers : Option RespHeaders
  body : Option String
  error : Option String
deriving DecidableEq, Repr

/-- `httpRequest`: resolves on all three event channels, never rejects.
On a response, `success := 200 ≤ statusCode < 500`; on an error the
error's message is kept; on timeout the request is destroyed and the
result carries `error: 'Timeout (10s)'`. -/
def httpRequest : NetEvent → HttpResult
  | .response sc h b => ⟨decide (200 ≤ sc) && decide (sc < 500), some sc, some h, some b, none⟩
  | .netError m => ⟨false, none, none, none, some m⟩
  | .timeout => ⟨false, none, none, none, some "Timeout (10s)"⟩

/-- Outcome of `JSON.parse(healthResult.body)` followed by reading
`data.status` and `data.timestamp` (the parse can throw). -/
inductive HealthParse where
  | parsed (status : String) (timestamp : String)
  | parseError
deriving DecidableEq, Repr

/-- Network outcomes for the three requests `checkServer` can issue. -/
structure ServerWorld where
  health : NetEvent
  cors : NetEvent
  cadastro : NetEvent
deriving DecidableEq, Repr

/-- What one `check*` function produces: the probes it recorded
(in order), the status it stored for its subsystem, and its
return value. -/
structure CheckResult where
  probes : List ProbeResult
  status : Status
  ok : Bool
deriving DecidableEq, Repr

/-- The `/api/cadastro` existence probe inside `checkServer`:
`cadastroResult.statusCode !== 404` counts as the endpoint existing
(an errored request has no `statusCode`, so it also counts). -/
def cadastroProbe (cadastroResult : HttpResult) : ProbeResult :=
  let endpointExists := !(cadastroResult.statusCode == some 404)
  ⟨"Endpoint /api/cadastro", if endpointExists then .passed else .failed,
    if endpointExists then "Endpoint existe" else "Endpoint não encontrado"⟩

/-- `checkServer`: gated on the health request; if it succeeds, the
health body is parsed, the CORS and cadastro probes run, and the
server status is set to `passed`; if it fails, a single failed probe
is recorded, the status is set to `failed` and the function returns. -/
def checkServer (parse : String → HealthParse) (w : ServerWorld) : CheckResult :=
  let healthResult := httpRequest w.health
  if healthResult.success then
    let healthProbe : ProbeResult :=
      match parse (healthResult.body.getD "") with
      | .parsed st ts =>
          ⟨"Health Check Endpoint", if st = "ok" then .passed else .failed, s!"Timestamp: {ts}"⟩
      | .parseError => ⟨"Health Check Endpoint", .failed, "Resposta inválida"⟩
    let corsResult := httpRequest w.cors
    let corsProbes : List ProbeResult :=
      if corsResult.success then
        let hasCorHeaders := corsResult.headers.isSome &&
          ((corsResult.headers.bind RespHeaders.allowOrigin).isSome ||
            corsResult.statusCode == some 204 || corsResult.statusCode == some 200)
        [⟨"CORS Configuration", if hasCorHeaders then .passed else .failed,
          "Headers configurados"⟩]
      else
        [⟨"CORS Configuration", .warning, "Não foi possível verificar"⟩]
    let cadastroResult := httpRequest w.cadastro
    ⟨healthProbe :: corsProbes ++ [cadastroProbe cadastroResult], .passed, true⟩
  else
    ⟨[⟨"Health Check Endpoint", .failed, jsOr healthResult.error "Servidor não respondeu"⟩],
      .failed, false⟩

/-- One entry of `requiredVars` in `checkEnvironment`. -/
structure EnvVar where
  name : String
  sensitive : Bool
deriving DecidableEq, Repr

/-- The seven required environment variables, in source order. -/
def requiredVars : List EnvVar :=
  [⟨"FIREBASE_PROJECT_ID", false⟩, ⟨"FIREBASE_PRIVATE_KEY", true⟩,
   ⟨"FIREBASE_CLIENT_EMAIL", false⟩, ⟨"RESEND_API_KEY", true⟩,
   ⟨"EMAIL_TO", false⟩, ⟨"EMAIL_FROM", false⟩, ⟨"PORT", false⟩]

/-- `process.env`, a partial map from names to string values. -/
def Env : Type := String → Option String

/-- JavaScript truthiness of `process.env[n]`
(`undefined` and `''` are falsy). -/
def envTruthy (env : Env) (n : String) : Bool :=
  match env n with
  | some v => v ≠ ""
  | none => false

/-- `!!value && value.trim() !== ''`: the variable is defined and not
empty or whitespace-only. -/
def envExists (env : Env) (n : String) : Bool :=
  match env n with
  | some v => v ≠ "" && v.trim ≠ ""
  | none => false

/-- The probe recorded for one required variable: passed with the
(possibly redacted) value as details, or failed with the fixed
message `'Variável não definida ou vazia'`. -/
def envProbe (env : Env) (v : EnvVar) : ProbeResult :=
  if envExists env v.name then
    let value := (env v.name).getD ""
    ⟨v.name, .passed, if v.sensitive then value.take 10 ++ "..." else value⟩
  else
    ⟨v.name, .failed, "Variável não definida ou vazia"⟩

/-- The three shape validations after the loop: each fires only when
the variable is truthy and the shape check fails, and each records a
warning (never a failed probe). -/
def shapeWarnings (env : Env) : List ProbeResult :=
  (if envTruthy env "FIREBASE_PRIVATE_KEY" &&
      !jsIncludes ((env "FIREBASE_PRIVATE_KEY").getD "") "BEGIN PRIVATE KEY" then
    [⟨"FIREBASE_PRIVATE_KEY", .warning, "Formato da chave pode estar incorreto"⟩]
  else []) ++
  (if envTruthy env "FIREBASE_CLIENT_EMAIL" &&
      !(jsIncludes ((env "FIREBASE_CLIENT_EMAIL").getD "") "@" &&
        jsIncludes ((env "FIREBASE_CLIENT_EMAIL").getD "") ".iam.gserviceaccount.com") then
    [⟨"FIREBASE_CLIENT_EMAIL", .warning, "Email não parece ser uma service account válida"⟩]
  else []) ++
  (if envTruthy env "RESEND_API_KEY" &&
      !(((env "RESEND_API_KEY").getD "").startsWith "re_") then
    [⟨"RESEND_API_KEY", .warning, "Chave não começa com \"re_\""⟩]
  else [])

/-- `checkEnvironment`: one probe per required variable, then the
shape warnings; `allPassed` (hence the stored status) depends only on
the per-variable existence checks. -/
def checkEnvironment (env : Env) : CheckResult :=
  let allPassed := requiredVars.all fun v => envExists env v.name
  ⟨requiredVars.map (envProbe env) ++ shapeWarnings env,
    if allPassed then .passed else .failed, allPassed⟩

deriving instance DecidableEq for Except

/-- The document returned by the verify `get` of the write test
(`testDoc.exists && testDoc.data().test === true`). -/
structure FsDoc where
  docExists : Bool
  testTrue : Bool
deriving DecidableEq, Repr

/-- Outcomes of the Firestore SDK calls `checkFirebase` can make;
each call can throw, which is caught by the subsystem-wide handler. -/
structure FirebaseWorld where
  initError : Option String
  collections : Except String (List String)
  countResult : Except String Nat
  setResult : Except String Unit
  getResult : Except String FsDoc
  deleteResult : Except String Unit
deriving DecidableEq, Repr

/-- Operations actually issued against the `_health_check/test`
document reference. -/
inductive FsOp where
  | setOp
  | getOp
  | deleteOp
deriving DecidableEq, Repr

/-- `checkFirebase`'s output: recorded probes, stored status, return
value, and the document operations that were attempted. -/
structure FirebaseResult where
  probes : List ProbeResult
  status : Status
  ok : Bool
  ops : List FsOp
deriving DecidableEq, Repr

/-- The `catch` block of `checkFirebase`: records one failed probe
with the error's message and stores status `failed`. -/
def firebaseCatch (probes : List ProbeResult) (ops : List FsOp) (msg : String) :
    FirebaseResult :=
  ⟨probes ++ [⟨"Firebase Firestore", .failed, msg⟩], .failed, false, ops⟩

/-- `checkFirebase`: SDK init, list collections, optional `cadastros`
count, then the write test `set → get → delete`; any throw anywhere
in the `try` lands in `firebaseCatch`. -/
def checkFirebase (projectId : String) (w : FirebaseWorld) : FirebaseResult :=
  match w.initError with
  | some e => firebaseCatch [] [] e
  | none =>
    let sdkProbe : ProbeResult := ⟨"Firebase Admin SDK", .passed, s!"Project: {projectId}"⟩
    match w.collections with
    | .error e => firebaseCatch [sdkProbe] [] e
    | .ok collectionNames =>
      let joined := jsOr (some (String.intercalate ", " collectionNames)) "nenhuma"
      let accessProbe : ProbeResult :=
        ⟨"Acesso ao Firestore", .passed, s!"Coleções: {joined}"⟩
      let hasCadastros := collectionNames.contains "cadastros"
      let cadastrosStep : Except String (List ProbeResult) :=
        if hasCadastros then
          match w.countResult with
          | .error e => .error e
          | .ok _ => .ok [⟨"Coleção \"cadastros\"", .passed, "Existe"⟩]
        else
          .ok [⟨"Coleção \"cadastros\"", .warning,
                "Ainda não existe (será criada no primeiro cadastro)"⟩]
      match cadastrosStep with
      | .error e => firebaseCatch [sdkProbe, accessProbe] [] e
      | .ok cadProbes =>
        let before := sdkProbe :: accessProbe :: cadProbes
        match w.setResult with
        | .error e => firebaseCatch before [.setOp] e
        | .ok _ =>
          match w.getResult with
          | .error e => firebaseCatch before [.setOp, .getOp] e
          | .ok doc =>
            let writeSuccess := doc.docExists && doc.testTrue
            let writeProbe : ProbeResult :=
              ⟨"Escrita no Firestore", if writeSuccess then .passed else .failed,
                "Teste de escrita OK"⟩
            match w.deleteResult with
            | .error e => firebaseCatch (before ++ [writeProbe]) [.setOp, .getOp, .deleteOp] e
            | .ok _ =>
              ⟨before ++ [writeProbe,
                  ⟨"Limpeza de teste", .passed, "Documento de teste removido"⟩],
                .passed, true, [.setOp, .getOp, .deleteOp]⟩

/-- Outcomes of the Resend SDK calls `checkResend` can make. -/
structure ResendWorld where
  initError : Option String
  domains : Except String (List String)
  emailTo : Option String
  emailFrom : Option String
deriving DecidableEq, Repr

/-- The two email-address probes at the end of `checkResend`
(`!!email && email.includes('@')`, details show the value). -/
def emailProbes (w : ResendWorld) : List ProbeResult :=
  [⟨"Email destino",
      if (match w.emailTo with | some t => t ≠ "" && jsIncludes t "@" | none => false)
      then .passed else .failed, w.emailTo.getD ""⟩,
   ⟨"Email origem",
      if (match w.emailFrom with | some f => f ≠ "" && jsIncludes f "@" | none => false)
      then .passed else .failed, w.emailFrom.getD ""⟩]

/-- `checkResend`: an init throw is caught by the outer handler; a
`domains.list` error mentioning `'API key'` fails the subsystem and
returns; any other `domains.list` error only warns; then the two
email-address probes run and the status is set to `passed`. -/
def checkResend (w : ResendWorld) : CheckResult :=
  match w.initError with
  | some e => ⟨[⟨"Resend Email API", .failed, e⟩], .failed, false⟩
  | none =>
    let keyProbe : ProbeResult := ⟨"Resend API Key", .passed, "Chave configurada"⟩
    match w.domains with
    | .ok _ =>
        ⟨keyProbe :: ⟨"Conexão com Resend", .passed, "API respondeu corretamente"⟩ ::
          emailProbes w, .passed, true⟩
    | .error msg =>
        if jsIncludes msg "API key" then
          ⟨[keyProbe, ⟨"Conexão com Resend", .failed, "API Key inválida"⟩], .failed, false⟩
        else
          ⟨keyProbe :: ⟨"Resend API", .warning, msg⟩ :: emailProbes w, .passed, true⟩

/-- The per-subsystem statuses stored in `results`. -/
structure Results where
  environment : Status
  server : Status
  firebase : Status
  resend : Status
  integration : Status
deriving DecidableEq, Repr

/-- `checkIntegration`: the gate passes iff the four earlier
subsystem statuses all equal `passed`; on pass, a latency above
1000 ms adds a warning; the gate's own status is stored under the
`integration` key. -/
def checkIntegration (rs : Results) (latency : Nat) :
    List ProbeResult × Results × Bool :=
  let allComponentsOk :=
    rs.environment == Status.passed && rs.server == Status.passed &&
      rs.firebase == Status.passed && rs.resend == Status.passed
  if allComponentsOk then
    ⟨⟨"Integração de Componentes", .passed, "Todos os sistemas comunicando"⟩ ::
        (if latency > 1000 then [⟨"Performance", .warning, s!"Latência alta: {latency}ms"⟩]
         else []),
      { rs with integration := .passed }, true⟩
  else
    ⟨[⟨"Integração de Componentes", .failed, "Um ou mais componentes falharam"⟩],
      { rs with integration := .failed }, false⟩

/-- `printReport`'s per-subsystem status line (ANSI colour codes and
icons kept, bright/reset codes omitted as pure presentation). -/
def statusDisplay : Status → String
  | .passed => "✅ OPERACIONAL"
  | .failed => "❌ FALHA"
  | .pending => "⏳ NÃO TESTADO"

/-- The derived success rate:
`totalTests > 0 ? Math.round((passedTests / totalTests) * 100) : 0`,
with JS number division modelled as exact rational division. -/
def successRate (passedTests totalTests : Nat) : ℤ :=
  if 0 < totalTests then round (((passedTests : ℚ) / totalTests) * 100) else 0

/-- `printReport`'s return value: `failedTests === 0`. -/
def printReportSuccess (c : Counters) : Bool :=
  c.failedTests == 0

/-- How `main`'s try/catch ends: all five checks completed (with the
final counters), or an exception escaped before the report. -/
inductive RunOutcome where
  | completed (c : Counters)
  | fatal (msg : String)
deriving DecidableEq, Repr

/-- The process exit code chosen by `main`:
`process.exit(success ? 0 : 1)` after the report, `process.exit(1)`
in the fatal catch. -/
def mainExitCode : RunOutcome → Nat
  | .completed c => if printReportSuccess c then 0 else 1
  | .fatal _ => 1

/-- Everything external a full run depends on. -/
structure World where
  env : Env
  parse : String → HealthParse
  server : ServerWorld
  firebase : FirebaseWorld
  resend : ResendWorld
  latency : Nat

/-- One full run of `main`'s check sequence: the five checks in
order, statuses collected into `results`, counters folded over all
recorded probes. -/
def runHealthCheck (w : World) : List ProbeResult × Results × Counters :=
  let envR := checkEnvironment w.env
  let srvR := checkServer w.parse w.server
  let fbR := checkFirebase ((w.env "FIREBASE_PROJECT_ID").getD "undefined") w.firebase
  let rsR := checkResend w.resend
  let rs1 : Results := ⟨envR.status, srvR.status, fbR.status, rsR.status, .pending⟩
  let intR := checkIntegration rs1 w.latency
  let probes := envR.probes ++ srvR.probes ++ fbR.probes ++ rsR.probes ++ intR.1
  ⟨probes, intR.2.1, recordAll Counters.init probes⟩

/-- Operations the `POST /api/cadastro` handler performs on the
`cadastros` collection (the handler itself never deletes, but the
constructor is needed to interpret operation traces on the store). -/
inductive StoreOp where
  | add (id : String)
  | deleteDoc (id : String)
deriving DecidableEq, Repr

/-- The JSON response of the `POST /api/cadastro` handler plus the
trace of store operations it performed. -/
structure Handled where
  status : Nat
  success : Bool
  message : String
  respId : Option String
  err : Option String
  ops : List StoreOp
deriving DecidableEq, Repr

/-- The `POST /api/cadastro` handler: `db.collection('cadastros').add`
then `resend.emails.send`, with a single try/catch around both; the
catch only responds 500 — it performs no store operation. -/
def cadastroHandler (addResult : Except String String)
    (sendResult : Except String Unit) : Handled :=
  match addResult with
  | .error e =>
      ⟨500, false, "Erro ao processar cadastro. Tente novamente.", none, some e, []⟩
  | .ok docId =>
      match sendResult with
      | .error e =>
          ⟨500, false, "Erro ao processar cadastro. Tente novamente.", none, some e,
            [.add docId]⟩
      | .ok _ =>
          ⟨200, true, "Cadastro realizado com sucesso!", some docId, none, [.add docId]⟩

/-- The documents present in the `cadastros` collection after a trace
of store operations (starting from an empty collection). -/
def storeAfter (ops : List StoreOp) : List String :=
  ops.foldl
    (fun st op =>
      match op with
      | .add i => st ++ [i]
      | .deleteDoc i => st.filter fun j => !(j == i))
    []

/-- C2: after any sequence of recorded probes the counter invariant
`totalTests = passedTests + failedTests` holds; `test` increments
`totalTests` and exactly one of `passedTests`/`failedTests`; `warn`
increments only `warnings`; and no recording ever decrements any of
the four counters. -/
theorem c2_counter_invariant :
    (∀ ps : List ProbeResult,
        (recordAll Counters.init ps).totalTests =
          (recordAll Counters.init ps).passedTests + (recordAll Counters.init ps).failedTests)
    ∧ (∀ (c : Counters) (n d : String),
        recordProbe c ⟨n, Outcome.passed, d⟩ =
          { c with totalTests := c.totalTests + 1, passedTests := c.passedTests + 1 })
    ∧ (∀ (c : Counters) (n d : String),
        recordProbe c ⟨n, Outcome.failed, d⟩ =
          { c with totalTests := c.totalTests + 1, failedTests := c.failedTests + 1 })
    ∧ (∀ (c : Counters) (n d : String),
        recordProbe c ⟨n, Outcome.warning, d⟩ = { c with warnings := c.warnings + 1 })
    ∧ (∀ (c : Counters) (p : ProbeResult), Counters.le c (recordProbe c p)) := by
  refine ⟨fun ps => recordAll_total_eq ps Counters.init rfl,
    fun c n d => rfl, fun c n d => rfl, fun c n d => rfl, fun c p => ?_⟩
  cases hp : p.outcome <;>
    simp [recordProbe, hp, Counters.le, Nat.le_succ]

/-- C3: after a completed run the exit code is 0 iff the failed count
is 0; the exit code never depends on the warnings counter; and a
fatal (uncaught) error always exits with code 1. -/
theorem c3_exit_code :
    (∀ c : Counters,
        mainExitCode (RunOutcome.completed c) = 0 ↔ c.failedTests = 0)
    ∧ (∀ (c : Counters) (w : Nat),
        mainExitCode (RunOutcome.completed { c with warnings := w }) =
          mainExitCode (RunOutcome.completed c))
    ∧ (∀ w : World,
        mainExitCode (RunOutcome.completed (runHealthCheck w).2.2) = 0 ↔
          (runHealthCheck w).2.2.failedTests = 0)
    ∧ (∀ msg, mainExitCode (RunOutcome.fatal msg) = 1) := by
  have base : ∀ c : Counters,
      mainExitCode (RunOutcome.completed c) = 0 ↔ c.failedTests = 0 := by
    intro c
    by_cases h : c.failedTests = 0 <;>
      simp [mainExitCode, printReportSuccess, h]
  exact ⟨base, fun c w => rfl, fun w => base _, fun msg => rfl⟩

/-- C9: `httpRequest` resolves on every modelled event; on a response
`success` is true exactly when `200 ≤ statusCode < 500` (so a 404
yields `success: true`); network errors and the 10-second timeout
resolve with `success: false` plus an error message; and the
`/api/cadastro` probe passes exactly when the status code is not 404
(an errored request has no status code and therefore passes). -/
theorem c9_http_request_boundary :
    (∀ e : NetEvent,
        (httpRequest e).success = true ↔
          match e with
          | .response sc _ _ => 200 ≤ sc ∧ sc < 500
          | .netError _ => False
          | .timeout => False)
    ∧ (∀ (h : RespHeaders) (b : String),
        (httpRequest (.response 404 h b)).success = true)
    ∧ (∀ m, (httpRequest (.netError m)).error = some m)
    ∧ (httpRequest .timeout).error = some "Timeout (10s)"
    ∧ (∀ (sc : Nat) (h : RespHeaders) (b : String),
        (cadastroProbe (httpRequest (.response sc h b))).outcome =
          if sc = 404 then Outcome.failed else Outcome.passed)
    ∧ (∀ m, (cadastroProbe (httpRequest (.netError m))).outcome = Outcome.passed)
    ∧ (cadastroProbe (httpRequest .timeout)).outcome = Outcome.passed := by
  refine ⟨fun e => ?_, fun h b => rfl, fun m => rfl, rfl, fun sc h b => ?_, fun m => rfl, rfl⟩
  · cases e <;> simp [httpRequest]
  · by_cases h404 : sc = 404 <;> simp [cadastroProbe, httpRequest, h404]

/-- C10: if the Firestore `add` succeeds and the email send throws,
the handler responds 500 with `success: false` and the generic error
message, and the trace contains the `add` but no delete — the
document created before the failure is still in the store. -/
theorem c10_cadastro_not_atomic :
    ∀ docId e : String,
      cadastroHandler (Except.ok docId) (Except.error e) =
        ⟨500, false, "Erro ao processar cadastro. Tente novamente.", none, some e,
          [StoreOp.add docId]⟩
      ∧ storeAfter (cadastroHandler (Except.ok docId) (Except.error e)).ops = [docId] :=
  fun _ _ => ⟨rfl, rfl⟩

/-- C5: the Integration Gate probe passes iff all four earlier
subsystem statuses equal `passed` (a subsystem left `pending` or set
to `failed` makes it fail), its result is stored under the
`integration` key, and the recorded gate probe is named
`Integração de Componentes`. -/
theorem c5_integration_gate :
    ∀ (rs : Results) (lat : Nat),
      ((checkIntegration rs lat).1.head?.map ProbeResult.outcome = some Outcome.passed ↔
        (rs.environment = Status.passed ∧ rs.server = Status.passed ∧
          rs.firebase = Status.passed ∧ rs.resend = Status.passed))
      ∧ ((checkIntegration rs lat).2.1.integration =
          if rs.environment == Status.passed && rs.server == Status.passed &&
              rs.firebase == Status.passed && rs.resend == Status.passed
          then Status.passed else Status.failed)
      ∧ ((checkIntegration rs lat).1.head?.map ProbeResult.outcome =
          some (if rs.environment == Status.passed && rs.server == Status.passed &&
              rs.firebase == Status.passed && rs.resend == Status.passed
            then Outcome.passed else Outcome.failed))
      ∧ ((checkIntegration rs lat).1.head?.map ProbeResult.name =
          some "Integração de Componentes") := by
  intro rs lat
  by_cases hok : (rs.environment == Status.passed && rs.server == Status.passed &&
      rs.firebase == Status.passed && rs.resend == Status.passed) = true
  · have hprop := hok
    simp only [Bool.and_eq_true, beq_iff_eq] at hprop
    refine ⟨?_, ?_, ?_, ?_⟩ <;>
      simp [checkIntegration, hok, hprop.1.1.1, hprop.1.1.2, hprop.1.2, hprop.2]
  · have hok' : (rs.environment == Status.passed && rs.server == Status.passed &&
        rs.firebase == Status.passed && rs.resend == Status.passed) = false :=
      Bool.not_eq_true _ ▸ (Bool.eq_false_iff.mpr (fun h => hok h))
    have hprop : ¬(rs.environment = Status.passed ∧ rs.server = Status.passed ∧
        rs.firebase = Status.passed ∧ rs.resend = Status.passed) := by
      intro ⟨h1, h2, h3, h4⟩
      simp [h1, h2, h3, h4] at hok'
    refine ⟨?_, ?_, ?_, ?_⟩ <;>
      simp [checkIntegration, hok', hprop]

/-- C4: when the gating health request of the server subsystem fails
(in particular on the 10-second timeout, whose detail contains
`Timeout`), the only recorded server probe is the failed health
probe — the CORS and `/api/cadastro` probes are neither run nor
recorded — and the probe total grows by exactly one. -/
theorem c4_gating_short_circuit (parse : String → HealthParse) (w : ServerWorld)
    (c : Counters) (h : (httpRequest w.health).success = false) :
    (checkServer parse w).probes =
      [⟨"Health Check Endpoint", Outcome.failed,
        jsOr (httpRequest w.health).error "Servidor não respondeu"⟩]
    ∧ (recordAll c (checkServer parse w).probes).totalTests = c.totalTests + 1
    ∧ (w.health = NetEvent.timeout →
        (checkServer parse w).probes =
          [⟨"Health Check Endpoint", Outcome.failed, "Timeout (10s)"⟩]
        ∧ jsIncludes "Timeout (10s)" "Timeout" = true) := by
  have hprobes : (checkServer parse w).probes =
      [⟨"Health Check Endpoint", Outcome.failed,
        jsOr (httpRequest w.health).error "Servidor não respondeu"⟩] := by
    simp [checkServer, h]
  refine ⟨hprobes, ?_, ?_⟩
  · rw [hprobes]; rfl
  · intro ht
    rw [hprobes, ht]
    exact ⟨rfl, by decide⟩

/-- Closed instance of `c4_gating_short_circuit` at the timeout
world, discharging its hypothesis. -/
theorem c4_gating_short_circuit_witness :
    (httpRequest (ServerWorld.mk NetEvent.timeout NetEvent.timeout NetEvent.timeout).health).success
        = false
    ∧ ((checkServer (fun _ => HealthParse.parseError)
          ⟨NetEvent.timeout, NetEvent.timeout, NetEvent.timeout⟩).probes =
        [⟨"Health Check Endpoint", Outcome.failed,
          jsOr (httpRequest (ServerWorld.mk NetEvent.timeout NetEvent.timeout
            NetEvent.timeout).health).error "Servidor não respondeu"⟩]
      ∧ (recordAll Counters.init (checkServer (fun _ => HealthParse.parseError)
            ⟨NetEvent.timeout, NetEvent.timeout, NetEvent.timeout⟩).probes).totalTests =
          Counters.init.totalTests + 1
      ∧ ((ServerWorld.mk NetEvent.timeout NetEvent.timeout NetEvent.timeout).health =
            NetEvent.timeout →
          (checkServer (fun _ => HealthParse.parseError)
              ⟨NetEvent.timeout, NetEvent.timeout, NetEvent.timeout⟩).probes =
            [⟨"Health Check Endpoint", Outcome.failed, "Timeout (10s)"⟩]
          ∧ jsIncludes "Timeout (10s)" "Timeout" = true)) :=
  ⟨rfl, c4_gating_short_circuit (fun _ => HealthParse.parseError)
    ⟨NetEvent.timeout, NetEvent.timeout, NetEvent.timeout⟩ Counters.init rfl⟩

lemma envProbes_filter_failed (env : Env) (vs : List EnvVar) :
    ((vs.map (envProbe env)).filter fun p => p.outcome == Outcome.failed) =
      (vs.filter fun v => !(envExists env v.name)).map
        fun v => ⟨v.name, Outcome.failed, "Variável não definida ou vazia"⟩ := by
  induction vs with
  | nil => rfl
  | cons v vs ih =>
      cases hv : envExists env v.name <;>
        simp [envProbe, hv, List.filter_cons, ih]

lemma envProbes_any_failed (env : Env) (vs : List EnvVar) :
    ((vs.map (envProbe env)).any fun p => p.outcome == Outcome.failed) =
      (vs.any fun v => !(envExists env v.name)) := by
  induction vs with
  | nil => rfl
  | cons v vs ih =>
      cases hv : envExists env v.name <;> simp [envProbe, hv, ih]

lemma shapeWarnings_all_warning (env : Env) :
    ((shapeWarnings env).all fun p => p.outcome == Outcome.warning) = true := by
  unfold shapeWarnings
  split_ifs <;> simp

lemma shapeWarnings_filter_failed (env : Env) :
    ((shapeWarnings env).filter fun p => p.outcome == Outcome.failed) = [] := by
  unfold shapeWarnings
  split_ifs <;> simp

lemma shapeWarnings_any_failed (env : Env) :
    ((shapeWarnings env).any fun p => p.outcome == Outcome.failed) = false := by
  unfold shapeWarnings
  split_ifs <;> simp

lemma any_not_eq_not_all (f : EnvVar → Bool) (vs : List EnvVar) :
    (vs.any fun v => !(f v)) = !(vs.all f) := by
  induction vs with
  | nil => rfl
  | cons v vs ih => cases hv : f v <;> simp [hv, ih]

/-- C7: an environment variable that is missing, empty or
whitespace-only records a failed probe with the fixed message
`Variável não definida ou vazia` (and those are exactly the failed
probes of the subsystem, so the status flips to `failed` exactly when
one exists), while a present value failing a shape check only ever
records a warning. -/
theorem c7_environment_probes :
    ∀ env : Env,
      (((checkEnvironment env).probes.filter fun p => p.outcome == Outcome.failed) =
        (requiredVars.filter fun v => !(envExists env v.name)).map
          fun v => ⟨v.name, Outcome.failed, "Variável não definida ou vazia"⟩)
      ∧ ((checkEnvironment env).status = Status.failed ↔
          (requiredVars.any fun v => !(envExists env v.name)) = true)
      ∧ ((shapeWarnings env).all fun p => p.outcome == Outcome.warning) = true := by
  intro env
  refine ⟨?_, ?_, shapeWarnings_all_warning env⟩
  · simp [checkEnvironment, List.filter_append, envProbes_filter_failed,
      shapeWarnings_filter_failed]
  · rw [any_not_eq_not_all]
    cases hall : requiredVars.all fun v => envExists env v.name <;>
      simp [checkEnvironment, hall]

/-- C1 as stated is false: in a run whose health request succeeds but
whose `/api/cadastro` request returns 404, the server subsystem
records a failed probe yet its final status is `passed`. -/
theorem c1_counterexample :
    (checkServer (fun _ => HealthParse.parsed "ok" "2024-01-01")
        ⟨NetEvent.response 200 ⟨some "*"⟩ "body",
         NetEvent.response 200 ⟨some "*"⟩ "",
         NetEvent.response 404 ⟨none⟩ ""⟩).status = Status.passed
    ∧ ((checkServer (fun _ => HealthParse.parsed "ok" "2024-01-01")
        ⟨NetEvent.response 200 ⟨some "*"⟩ "body",
         NetEvent.response 200 ⟨some "*"⟩ "",
         NetEvent.response 404 ⟨none⟩ ""⟩).probes.any
          fun p => p.outcome == Outcome.failed) = true := by
  exact ⟨rfl, rfl⟩

/-- C1 amended: the environment subsystem does satisfy the
status-iff-failed-probe rule; but the server status only reflects the
gating health request (it is `passed` whenever that request succeeds,
even if the CORS or `/api/cadastro` probes failed), and the resend
status only reflects initialization and the API-key check on the
domains call (it is `passed` otherwise, even if the email-address
probes failed). -/
theorem c1_amended_subsystem_status :
    (∀ env : Env,
        (checkEnvironment env).status = Status.failed ↔
          ((checkEnvironment env).probes.any fun p => p.outcome == Outcome.failed) = true)
    ∧ (∀ (parse : String → HealthParse) (w : ServerWorld),
        (checkServer parse w).status =
          if (httpRequest w.health).success then Status.passed else Status.failed)
    ∧ (∀ w : ResendWorld,
        (checkResend w).status =
          match w.initError, w.domains with
          | some _, _ => Status.failed
          | none, .error m =>
              if jsIncludes m "API key" then Status.failed else Status.passed
          | none, .ok _ => Status.passed) := by
  refine ⟨fun env => ?_, fun parse w => ?_, fun w => ?_⟩
  · rw [show (checkEnvironment env).probes =
        requiredVars.map (envProbe env) ++ shapeWarnings env from rfl]
    rw [List.any_append, envProbes_any_failed, shapeWarnings_any_failed,
      any_not_eq_not_all]
    cases hall : requiredVars.all fun v => envExists env v.name <;>
      simp [checkEnvironment, hall]
  · cases hs : (httpRequest w.health).success <;> simp [checkServer, hs]
  · obtain ⟨ie, dom, eto, efrom⟩ := w
    cases ie with
    | some e => rfl
    | none =>
        cases dom with
        | ok ns => rfl
        | error m =>
            by_cases hm : jsIncludes m "API key" = true
            · simp [checkResend, hm]
            · have hm' : jsIncludes m "API key" = false := by
                simpa using hm
              simp [checkResend, hm']

/-- The control-flow condition under which `checkFirebase` reaches
the cleanup `delete`: nothing before it threw (readable off the
sequence of awaited calls in the `try` block). -/
def reachesDelete (w : FirebaseWorld) : Bool :=
  w.initError.isNone &&
  (match w.collections with
   | .ok ns =>
       !ns.contains "cadastros" ||
         (match w.countResult with | .ok _ => true | .error _ => false)
   | .error _ => false) &&
  (match w.setResult with | .ok _ => true | .error _ => false) &&
  (match w.getResult with | .ok _ => true | .error _ => false)

/-- A firebase world where everything up to the write test succeeds
and only the cleanup `delete` throws. -/
def fbWorldDeleteFails : FirebaseWorld :=
  ⟨none, .ok ["cadastros"], .ok 5, .ok (), .ok ⟨true, true⟩, .error "Permission denied"⟩

/-- C6 as stated is false: when only the cleanup delete throws, the
subsystem-wide catch records an additional failed probe and sets the
firebase status to `failed`; no warning is recorded. -/
theorem c6_counterexample :
    (checkFirebase "paraty-go" fbWorldDeleteFails).status = Status.failed
    ∧ ⟨"Firebase Firestore", Outcome.failed, "Permission denied"⟩ ∈
        (checkFirebase "paraty-go" fbWorldDeleteFails).probes
    ∧ ((checkFirebase "paraty-go" fbWorldDeleteFails).probes.filter
        fun p => p.outcome == Outcome.warning) = [] := by
  refine ⟨rfl, ?_, rfl⟩
  decide

/-- C6 amended: whenever the `set` and the verify `get` complete
without throwing, the cleanup `delete` is attempted regardless of the
verify's boolean outcome, and the already-recorded write probe keeps
that outcome; but if the `delete` throws, the subsystem-wide catch
records an additional failed probe with the error message and sets
the firebase status to `failed` — no advisory warning is emitted
(the only possible warning is the unrelated missing-`cadastros`
one). -/
theorem c6_cleanup_delete (pid : String) (w : FirebaseWorld)
    (h : reachesDelete w = true) :
    FsOp.deleteOp ∈ (checkFirebase pid w).ops
    ∧ (∀ doc : FsDoc, w.getResult = Except.ok doc →
        ⟨"Escrita no Firestore",
          if doc.docExists && doc.testTrue then Outcome.passed else Outcome.failed,
          "Teste de escrita OK"⟩ ∈ (checkFirebase pid w).probes)
    ∧ (∀ e : String, w.deleteResult = Except.error e →
        (checkFirebase pid w).status = Status.failed
        ∧ ⟨"Firebase Firestore", Outcome.failed, e⟩ ∈ (checkFirebase pid w).probes
        ∧ ((checkFirebase pid w).probes.countP fun p => p.outcome == Outcome.warning) =
            (match w.collections with
             | .ok ns => if ns.contains "cadastros" then 0 else 1
             | .error _ => 0)) := by
  obtain ⟨ie, cols, cnt, st, gt, del⟩ := w
  cases ie with
  | some e => simp [reachesDelete] at h
  | none =>
      cases cols with
      | error e => simp [reachesDelete] at h
      | ok ns =>
          cases st with
          | error e => simp [reachesDelete] at h
          | ok u =>
              cases gt with
              | error e => simp [reachesDelete] at h
              | ok doc =>
                  by_cases hmem : "cadastros" ∈ ns
                  · have hc : ns.contains "cadastros" = true := by simpa using hmem
                    cases cnt with
                    | error e => simp [reachesDelete, hc, hmem] at h
                    | ok n =>
                        cases hw : doc.docExists && doc.testTrue <;>
                          cases del with
                          | ok u2 =>
                              refine ⟨by simp [checkFirebase, hmem], ?_, fun e he => by cases he⟩
                              intro d hd
                              cases hd
                              simp [checkFirebase, hmem, hw]
                          | error e =>
                              refine ⟨by simp [checkFirebase, firebaseCatch, hmem], ?_, ?_⟩
                              · intro d hd
                                cases hd
                                simp [checkFirebase, firebaseCatch, hmem, hw]
                              · intro e2 he
                                cases he
                                refine ⟨?_, ?_, ?_⟩ <;>
                                  simp [checkFirebase, firebaseCatch, hmem, hc, hw,
                                    List.countP_append, List.countP_cons]
                  · have hc : ns.contains "cadastros" = false := by simpa using hmem
                    cases hw : doc.docExists && doc.testTrue <;>
                      cases del with
                      | ok u2 =>
                          refine ⟨by simp [checkFirebase, hmem], ?_, fun e he => by cases he⟩
                          intro d hd
                          cases hd
                          simp [checkFirebase, hmem, hw]
                      | error e =>
                          refine ⟨by simp [checkFirebase, firebaseCatch, hmem], ?_, ?_⟩
                          · intro d hd
                            cases hd
                            simp [checkFirebase, firebaseCatch, hmem, hw]
                          · intro e2 he
                            cases he
                            refine ⟨?_, ?_, ?_⟩ <;>
                              simp [checkFirebase, firebaseCatch, hmem, hc, hw,
                                List.countP_append, List.countP_cons]

/-- Closed instance of `c6_cleanup_delete` at `fbWorldDeleteFails`,
discharging its hypotheses. -/
theorem c6_cleanup_delete_witness :
    reachesDelete fbWorldDeleteFails = true
    ∧ fbWorldDeleteFails.getResult = Except.ok ⟨true, true⟩
    ∧ fbWorldDeleteFails.deleteResult = Except.error "Permission denied"
    ∧ FsOp.deleteOp ∈ (checkFirebase "paraty-go" fbWorldDeleteFails).ops
    ∧ ⟨"Escrita no Firestore", Outcome.passed, "Teste de escrita OK"⟩ ∈
        (checkFirebase "paraty-go" fbWorldDeleteFails).probes
    ∧ (checkFirebase "paraty-go" fbWorldDeleteFails).status = Status.failed := by
  have hmain := c6_cleanup_delete "paraty-go" fbWorldDeleteFails (by decide)
  refine ⟨by decide, rfl, rfl, hmain.1, ?_, (hmain.2.2 "Permission denied" rfl).1⟩
  have hw := hmain.2.1 ⟨true, true⟩ rfl
  simpa using hw

/-- C8: for a nonzero total the reported success rate is
`round(passed / total × 100)` (equivalently, the integer
`(200·passed + total) / (2·total)`), it is 0 when the total is 0, and
the report displays OPERACIONAL / FALHA / NÃO TESTADO for the
statuses passed / failed / pending. -/
theorem c8_report_rate_and_display (p t : Nat) (h : 0 < t) :
    successRate p t = round (((p : ℚ) * 100) / t)
    ∧ successRate p t = (200 * (p : ℤ) + t) / (2 * t)
    ∧ (∀ q : Nat, successRate q 0 = 0)
    ∧ statusDisplay Status.passed = "✅ OPERACIONAL"
    ∧ statusDisplay Status.failed = "❌ FALHA"
    ∧ statusDisplay Status.pending = "⏳ NÃO TESTADO" := by
  have ht : (t : ℚ) ≠ 0 := by
    exact_mod_cast Nat.pos_iff_ne_zero.mp h
  have hdm : ((p : ℚ) / t) * 100 = (p : ℚ) * 100 / t := div_mul_eq_mul_div _ _ _
  refine ⟨?_, ?_, fun q => rfl, rfl, rfl, rfl⟩
  · simp [successRate, h, hdm]
  · rw [successRate, if_pos h, round_eq, hdm]
    have hx : (p : ℚ) * 100 / t + 1 / 2 =
        ((200 * (p : ℤ) + t : ℤ) : ℚ) / ((2 * t : ℕ) : ℚ) := by
      field_simp
      ring
    rw [hx, Rat.floor_intCast_div_natCast]
    push_cast
    ring_nf

/-- Closed instance of `c8_report_rate_and_display` at
`passed = 3, total = 4`, discharging its hypothesis. -/
theorem c8_report_rate_and_display_witness :
    0 < 4 ∧ successRate 3 4 = round (((3 : ℚ) * 100) / 4)
      ∧ successRate 3 4 = (200 * (3 : ℤ) + 4) / (2 * 4) :=
  ⟨by norm_num, (c8_report_rate_and_display 3 4 (by norm_num)).1,
    (c8_report_rate_and_display 3 4 (by norm_num)).2.1⟩

end ParatyGo
